import Mathlib

/-!
Verification of the review-crawler in `src/main.py` (class `AmazonReviewScraper`).

The crawler's collaborators (BeautifulSoup document trees, `requests` transport,
`urllib.parse.urljoin`, the output file) are shallowly embedded:

* an HTML document tree is a `Node` (element with tag/attributes/children, or a
  text node); BeautifulSoup's `find` / `find_all` search the descendants in
  document (preorder) order, `.text` concatenates all text in the subtree, and
  truthiness of a tag is `len(contents) > 0` (empty tags are falsy in bs4);
* the transport is a function from URL to `FetchOutcome` (a status code plus
  parsed body, or a transport-level exception);
* `urljoin` is modelled for the fixed base `"https://www.amazon.com"` used by
  the code (scheme-carrying hrefs returned unchanged, network-path `//`,
  absolute-path `/`, query `?`, fragment `#`, and plain relative references);
* the output file is modelled by the string content the `save_to_file` loop
  writes (mode "w" truncates, so the previous content is discarded).

The `while` loop of `scrape` is embedded as structural recursion on the number
of page fetches still allowed: `pagesLeft = max_pages - page_num + 1`, so the
guard `page_num <= max_pages` becomes `pagesLeft > 0` and the initial state
`page_num = 1` becomes `pagesLeft = max_pages`.
-/

/-- A node of a parsed HTML document: an element (tag, attributes, children in
document order) or a piece of text (a bs4 `NavigableString`). -/
inductive Node where
  | text (s : String)
  | elem (tag : String) (attrs : List (String × String)) (children : List Node)

/-- Python `str.strip()`: remove leading whitespace (`dropWhile`), then
trailing whitespace (`rdropWhile`). -/
def pyStrip (s : String) : String :=
  String.mk ((s.data.dropWhile Char.isWhitespace).rdropWhile Char.isWhitespace)

/-- Whether the first character list occurs as a contiguous run inside the
second (helper for Python's `sub in s`). -/
def subList : List Char → List Char → Bool
  | needle, [] => needle.isEmpty
  | needle, c :: cs => needle.isPrefixOf (c :: cs) || subList needle cs

/-- Python `sub in s` for strings: substring containment. -/
def containsSubstr (s sub : String) : Bool :=
  subList sub.data s.data

/-- Python `s.startswith(pat)`. -/
def pyStartsWith (s pat : String) : Bool :=
  pat.data.isPrefixOf s.data

/-- The characters before the first `:`, when the string has one. -/
def beforeColon : List Char → Option (List Char)
  | [] => none
  | c :: cs =>
    if c == ':' then some []
    else match beforeColon cs with
      | none => none
      | some r => some (c :: r)

/-- Whitespace-split of a `class` attribute value into its class list
(single-space separated; empty runs give empty entries, which never match). -/
def classList : List Char → List Char → List String
  | [], cur => [String.mk cur.reverse]
  | c :: cs, cur =>
    if c == ' ' then String.mk cur.reverse :: classList cs []
    else classList cs (c :: cur)

/-- Python truthiness of a bs4 node: a tag is truthy iff it has contents
(bs4 `Tag` defines `__len__` as `len(self.contents)` and no `__bool__`);
a `NavigableString` is a `str`, truthy iff non-empty. -/
def truthy : Node → Bool
  | .text s => !(s == "")
  | .elem _ _ cs => !cs.isEmpty

/-- `element.get(name)` / attribute lookup: the value of the first binding of
the attribute, if present. -/
def Node.attr : Node → String → Option String
  | .text _, _ => none
  | .elem _ attrs _, k => ((attrs.find? fun p => p.1 == k).map fun p => p.2)

/-- bs4 matching of a string against the multi-valued `class` attribute:
the string matches if it equals the full attribute value or any single
whitespace-separated class. -/
def classMatch (want actual : String) : Bool :=
  want == actual || (classList actual.data []).contains want

/-- Whether an element matches a `find`/`find_all` query `(tag, attrs)`:
the tag name is equal and every required attribute is present with a matching
value (`class` uses multi-valued matching, other attributes exact equality). -/
def matchesSelector (tag : String) (want : List (String × String)) : Node → Bool
  | .text _ => false
  | .elem t attrs _ =>
    t == tag && want.all fun kv =>
      match (attrs.find? fun p => p.1 == kv.1) with
      | none => false
      | some p => if kv.1 == "class" then classMatch kv.2 p.2 else kv.2 == p.2

mutual
/-- bs4 `element.text` (`get_text()`): the concatenation, in document order,
of every text node in the subtree. -/
def nodeText : Node → String
  | .text s => s
  | .elem _ _ cs => nodeTextL cs
/-- `nodeText` mapped over a child list, concatenated. -/
def nodeTextL : List Node → String
  | [] => ""
  | c :: cs => nodeText c ++ nodeTextL cs
end

mutual
/-- All nodes strictly below a node, in document (preorder) order:
the search space of bs4 `find` / `find_all`. -/
def descendants : Node → List Node
  | .text _ => []
  | .elem _ _ cs => descendantsL cs
/-- Descendants of a child list: each child followed by its own descendants. -/
def descendantsL : List Node → List Node
  | [] => []
  | c :: cs => c :: (descendants c ++ descendantsL cs)
end

/-- bs4 `find_all(tag, attrs=want)`: every matching descendant element,
in document order. -/
def find_all (n : Node) (tag : String) (want : List (String × String)) : List Node :=
  (descendants n).filter (matchesSelector tag want)

/-- bs4 `find(tag, attrs=want)`: the first matching descendant element,
if any. -/
def Node.find (n : Node) (tag : String) (want : List (String × String)) : Option Node :=
  (find_all n tag want).head?

/-- Whether a string starts with a URI scheme (letters/digits/`+`/`-`/`.`
followed by a colon): the absolute/relative test used to model `urljoin`. -/
def hasScheme (s : String) : Bool :=
  match beforeColon s.data with
  | none => false
  | some c =>
    !c.isEmpty && c.all (fun ch => ch.isAlpha || ch.isDigit || ch == '+' || ch == '-' || ch == '.')

/-- `urllib.parse.urljoin(base, url)` specialised to the root base
`"https://www.amazon.com"` (scheme, empty path) the code always passes:
a scheme-carrying reference is returned unchanged, a network-path reference
`//h/p` gets the base's scheme, an absolute path / query / fragment is
appended to the root, and any other relative reference is attached below
the root path. -/
def urljoin (base url : String) : String :=
  if url == "" then base
  else if hasScheme url then url
  else if pyStartsWith url "//" then "https:" ++ url
  else if pyStartsWith url "/" || pyStartsWith url "?" || pyStartsWith url "#" then base ++ url
  else base ++ "/" ++ url

/-- The ordered extraction-strategy list of `extract_reviews_from_page`
(src/main.py lines 72-76): `(tag, attrs)` pairs tried in priority order. -/
def selectors : List (String × List (String × String)) :=
  [("div", [("data-hook", "review-collapsed")]),
   ("span", [("data-hook", "review-body")]),
   ("span", [("class", "a-size-base review-text")])]

/-- The text taken from one matched element (src/main.py lines 83-87): for a
`div` strategy, descend to the first inner `span` and take its stripped text
(`""` when the span is missing or falsy); otherwise the element's own stripped
text. -/
def selectorText (tag : String) (element : Node) : String :=
  if tag == "div" then
    match element.find "span" [] with
    | some span => if truthy span then pyStrip (nodeText span) else ""
    | none => ""
  else pyStrip (nodeText element)

/-- The reviews contributed by one strategy's matched elements
(src/main.py lines 82-90): per-element texts, keeping only non-empty ones,
in document order. -/
def selectorTexts (tag : String) (elements : List Node) : List String :=
  (elements.map (selectorText tag)).filter (fun t => !(t == ""))

/-- The `for tag, attrs in selectors` loop with its `break`
(src/main.py lines 78-91): the first strategy whose `find_all` is non-empty
supplies the page's reviews; later strategies are not consulted. -/
def tryStrategies (soup : Node) : List (String × List (String × String)) → List String
  | [] => []
  | (tag, attrs) :: rest =>
    let review_elements := find_all soup tag attrs
    if review_elements.isEmpty then tryStrategies soup rest
    else selectorTexts tag review_elements

/-- `AmazonReviewScraper.extract_reviews_from_page` (src/main.py lines 65-96):
`[]` for a falsy soup (`if not soup`), else the first matching strategy's
non-empty stripped texts. -/
def extract_reviews_from_page (soup : Option Node) : List String :=
  match soup with
  | none => []
  | some s => if truthy s then tryStrategies s selectors else []

/-- The root URL against which the code resolves every discovered href. -/
def amazonRoot : String := "https://www.amazon.com"

/-- The `for link in next_links` scan of method 2 (src/main.py lines 114-116):
the first link whose text is non-empty and contains "Next" is returned with
`link["href"]` resolved against the root — raising `KeyError` (modelled as
`Except.error`) when that link has no `href` attribute. -/
def scanLinks : List Node → Except String (Option String)
  | [] => .ok none
  | link :: rest =>
    if !(nodeText link == "") && containsSubstr (nodeText link) "Next" then
      match link.attr "href" with
      | some href => .ok (some (urljoin amazonRoot href))
      | none => .error "KeyError: href"
    else scanLinks rest

/-- Method 2 of `find_next_page_url` (src/main.py lines 111-116), also the
fall-through of method 1: inside a truthy `div#cm_cr-pagination_bar`, scan
the `a.a-link-normal` links for one whose text contains "Next". -/
def findNextMethod2 (s : Node) : Except String (Option String) :=
  match s.find "div" [("id", "cm_cr-pagination_bar")] with
  | some pagination =>
    if truthy pagination then
      scanLinks (find_all pagination "a" [("class", "a-link-normal")])
    else .ok none
  | none => .ok none

/-- `AmazonReviewScraper.find_next_page_url` (src/main.py lines 98-118):
method 1 looks for a truthy `li.a-last` holding a truthy `a` with a truthy
`href` (src/main.py lines 104-108); every failure of that chain falls
through to method 2. A raised `KeyError` is `Except.error`; `None` is
`Except.ok none`. -/
def find_next_page_url (soup : Option Node) : Except String (Option String) :=
  match soup with
  | none => .ok none
  | some s =>
    if !truthy s then .ok none
    else
      match s.find "li" [("class", "a-last")] with
      | some next_page_li =>
        if truthy next_page_li then
          match next_page_li.find "a" [] with
          | some next_page_a =>
            if truthy next_page_a then
              match next_page_a.attr "href" with
              | some href =>
                if !(href == "") then .ok (some (urljoin amazonRoot href))
                else findNextMethod2 s
              | none => findNextMethod2 s
            else findNextMethod2 s
          | none => findNextMethod2 s
        else findNextMethod2 s
      | none => findNextMethod2 s

/-- The crawler's state after construction (src/main.py lines 15-39):
the stored product id, the starting URL, the page cap, the delay bounds and
the (initially empty) accumulated review list. The HTTP session and headers
only affect transport, which is a collaborator here. -/
structure AmazonReviewScraper where
  product_id : String
  base_url : String
  max_pages : Nat
  delay_range : Nat × Nat
  reviews : List String

/-- `AmazonReviewScraper.__init__` (src/main.py lines 16-39): note that the
stored `product_id` field is assigned the hardcoded literal `"B09G9FPHY6"`
(line 25) while `base_url` is built from the `product_id` argument
(line 26). -/
def AmazonReviewScraper.init (product_id : String) (max_pages : Nat)
    (delay_range : Nat × Nat) : AmazonReviewScraper :=
  { product_id := "B09G9FPHY6"
    base_url := "https://www.amazon.com/product-reviews/" ++ product_id
    max_pages := max_pages
    delay_range := delay_range
    reviews := [] }

/-- What one `session.get(url)` call yields: a response with a status code and
a parsed body tree, or a transport-level exception (timeout, DNS, ...). -/
inductive FetchOutcome where
  | response (status : Nat) (doc : Node)
  | exn (msg : String)

/-- `AmazonReviewScraper._fetch_page` (src/main.py lines 47-63): status 200
gives the parsed soup; 503/429 (rate limited), any other status, and any
raised exception all give `None` — distinguished only in the log. -/
def _fetch_page (transport : String → FetchOutcome) (url : String) : Option Node :=
  match transport url with
  | .response status doc =>
    if status == 200 then some doc
    else if status == 503 || status == 429 then none
    else none
  | .exn _ => none

/-- Python truthiness of the value `_fetch_page` returns (`if not soup`):
`None` is falsy, and so is a parsed tree with no contents. -/
def truthySoup : Option Node → Bool
  | none => false
  | some n => truthy n

/-- The `while current_url and page_num <= self.max_pages` loop of
`AmazonReviewScraper.scrape` (src/main.py lines 125-144), with
`pagesLeft = max_pages - page_num + 1` as the structural fuel (so the guard
`page_num <= max_pages` is `pagesLeft > 0`). Returns the loop's result —
`Except.error` when `find_next_page_url` raises, otherwise the accumulated
reviews — paired with the number of fetch attempts performed. -/
def scrapeLoop (transport : String → FetchOutcome) :
    Nat → String → List String → Except String (List String) × Nat
  | 0, _, acc => (.ok acc, 0)
  | pagesLeft + 1, current_url, acc =>
    if current_url == "" then (.ok acc, 0)
    else
      let soup := _fetch_page transport current_url
      if truthySoup soup then
        let page_reviews := extract_reviews_from_page soup
        let acc2 := acc ++ page_reviews
        match find_next_page_url soup with
        | .error e => (.error e, 1)
        | .ok none => (.ok acc2, 1)
        | .ok (some next_url) =>
          if !(next_url == "") && !(next_url == current_url) then
            let r := scrapeLoop transport pagesLeft next_url acc2
            (r.1, r.2 + 1)
          else (.ok acc2, 1)
      else (.ok acc, 1)

/-- `AmazonReviewScraper.scrape` (src/main.py lines 120-147): run the loop
from `base_url` with `page_num = 1` and the reviews accumulated so far
(empty after construction). -/
def scrape (transport : String → FetchOutcome) (s : AmazonReviewScraper) :
    Except String (List String) × Nat :=
  scrapeLoop transport s.max_pages s.base_url s.reviews

/-- The 50-character `=` delimiter line of `save_to_file`. -/
def eqBar : String := String.mk (List.replicate 50 '=')

/-- One block written per review by `save_to_file` (src/main.py line 153):
the f-string `"Review {i}:\n{review}\n\n{'='*50}\n\n"`. -/
def reviewBlock (i : Nat) (review : String) : String :=
  "Review " ++ toString i ++ ":\n" ++ review ++ "\n\n" ++ eqBar ++ "\n\n"

/-- `AmazonReviewScraper.save_to_file` (src/main.py lines 149-154), modelled
on the file content: opening with mode "w" truncates (the old content is
discarded), then the `for i, review in enumerate(self.reviews, 1)` loop
appends one block per review. -/
def save_to_file (reviews : List String) (_oldContent : String) : String :=
  reviews.enum.foldl (fun content p => content ++ reviewBlock (p.1 + 1) p.2) ""

/-- Modelled from the spec ("one numbered, delimited block per review", in
original order): the list of blocks the transcript should consist of, used
to state the refinement of `save_to_file`. -/
def transcriptBlocks (reviews : List String) : List String :=
  reviews.enum.map (fun p => reviewBlock (p.1 + 1) p.2)

/-- Concatenation of a list of strings (used to state what the persisted
transcript consists of). -/
def concatAll : List String → String
  | [] => ""
  | s :: rest => s ++ concatAll rest

/-- A page whose reviews match the second strategy (`span[data-hook=review-body]`):
three matched elements, two with non-empty text and one whitespace-only. -/
def c8soup : Node :=
  .elem "[document]" [] [
    .elem "span" [("data-hook", "review-body")] [.text "Great product"],
    .elem "span" [("data-hook", "review-body")] [.text "   "],
    .elem "span" [("data-hook", "review-body")] [.text "Works well"]]

/-- A page with no `li.a-last` marker whose pagination container holds an
`a.a-link-normal` link with visible text containing "Next" and no `href`. -/
def c2soup : Node :=
  .elem "[document]" [] [
    .elem "div" [("id", "cm_cr-pagination_bar")] [
      .elem "a" [("class", "a-link-normal")] [.text "Next page"]]]

/-- A page matched by the first strategy (`div[data-hook=review-collapsed]`)
whose single match is whitespace-only, while the second strategy would have
matched a non-empty review. -/
def c5soup : Node :=
  .elem "[document]" [] [
    .elem "div" [("data-hook", "review-collapsed")] [.elem "span" [] [.text "  "]],
    .elem "span" [("data-hook", "review-body")] [.text "Real review text"]]

/-- A page whose first strategy matches one div with inner span text " ok ". -/
def c5div : Node :=
  .elem "[document]" [] [
    .elem "div" [("data-hook", "review-collapsed")] [.elem "span" [] [.text " ok "]]]

/-- Review page 1 for product "X": one review and a next-page link in the
`li.a-last` marker. -/
def soupPage1 : Node :=
  .elem "[document]" [] [
    .elem "span" [("data-hook", "review-body")] [.text "Nice product"],
    .elem "li" [("class", "a-last")] [
      .elem "a" [("href", "/product-reviews/X?pageNumber=2")] [.text "Next"]]]

/-- The starting URL the constructor builds for the supplied identifier "X". -/
def productXUrl : String := "https://www.amazon.com/product-reviews/X"

/-- A transport that serves page 1 of product "X" with status 200 and answers
every other URL (page 2 included) with a rate-limited 429. -/
def transportC4 (url : String) : FetchOutcome :=
  if url == productXUrl then .response 200 soupPage1
  else .response 429 (.elem "html" [] [])

/-- A transport on which every request raises a connection error. -/
def transportDown (_url : String) : FetchOutcome := .exn "connection timeout"

/-- A transport that serves the same reviews-only page (no pagination) with
status 200 for every URL. -/
def transportC7 (_url : String) : FetchOutcome := .response 200 c8soup

/-- A list that is a fixed point of `dropWhile p` stays one after its trailing
run of `p`-satisfying elements is removed (the head is unchanged). -/
theorem dropWhile_fixed_rdrop (p : Char → Bool) (x : List Char)
    (hx : x.dropWhile p = x) : (x.rdropWhile p).dropWhile p = x.rdropWhile p := by
  rcases hm : x.rdropWhile p with _ | ⟨c, rest⟩
  · rfl
  · obtain ⟨t, ht⟩ := List.rdropWhile_prefix p x
    rw [hm] at ht
    have hx2 : (c :: (rest ++ t)).dropWhile p = c :: (rest ++ t) := by
      have h0 := hx
      rw [← ht] at h0
      simpa [List.cons_append] using h0
    have hpc : p c = false := by
      cases hc : p c with
      | false => rfl
      | true =>
        exfalso
        rw [List.dropWhile_cons, if_pos hc] at hx2
        have hlen := congrArg List.length hx2
        rw [List.length_cons] at hlen
        have hle := (List.dropWhile_sublist (p := p) (l := rest ++ t)).length_le
        omega
    rw [List.dropWhile_cons, if_neg (by simp [hpc])]

/-- Stripping an already stripped string changes nothing. -/
theorem pyStrip_idem (s : String) : pyStrip (pyStrip s) = pyStrip s := by
  unfold pyStrip
  have hdata : (String.mk ((s.data.dropWhile Char.isWhitespace).rdropWhile Char.isWhitespace)).data
      = (s.data.dropWhile Char.isWhitespace).rdropWhile Char.isWhitespace := rfl
  rw [hdata, dropWhile_fixed_rdrop _ _ (List.dropWhile_idempotent _ _),
    List.rdropWhile_idempotent]

/-- Any string of the form `"https:" ++ u` carries a scheme. -/
theorem hasScheme_https_append (u : String) : hasScheme ("https:" ++ u) = true := by
  have hd : ("https:" ++ u).data = 'h' :: 't' :: 't' :: 'p' :: 's' :: ':' :: u.data := by
    rw [String.data_append]; rfl
  have hb : beforeColon ('h' :: 't' :: 't' :: 'p' :: 's' :: ':' :: u.data)
      = some ['h', 't', 't', 'p', 's'] := rfl
  unfold hasScheme
  rw [hd, hb]
  rfl

/-- The site root is itself absolute. -/
theorem hasScheme_amazonRoot : hasScheme amazonRoot = true := rfl

/-- Everything `urljoin` produces against the site root carries a scheme. -/
theorem hasScheme_urljoin (u : String) : hasScheme (urljoin amazonRoot u) = true := by
  unfold urljoin
  split
  · exact hasScheme_amazonRoot
  · split
    · rename_i h; exact h
    · split
      · exact hasScheme_https_append u
      · split
        · have h4 : amazonRoot ++ u = "https:" ++ ("//www.amazon.com" ++ u) := rfl
          rw [h4]; exact hasScheme_https_append _
        · have h5 : amazonRoot ++ "/" ++ u = "https:" ++ ("//www.amazon.com/" ++ u) := rfl
          rw [h5]; exact hasScheme_https_append _

/-- Any URL the method-2 link scan returns is absolute. -/
theorem scanLinks_absolute : ∀ (links : List Node) (url : String),
    scanLinks links = Except.ok (some url) → hasScheme url = true := by
  intro links
  induction links with
  | nil => intro url h; simp [scanLinks] at h
  | cons link rest ih =>
    intro url h
    simp only [scanLinks] at h
    split at h
    · split at h
      · rename_i href _
        have h1 := Option.some.inj (Except.ok.inj h)
        rw [← h1]
        exact hasScheme_urljoin href
      · simp at h
    · exact ih url h

/-- C2: there is a document tree with no last-pagination-item link in which
the pagination container holds a link whose visible text contains "Next" and
which has no href: on it `find_next_page_url` raises (`KeyError` on the
unguarded `link["href"]`) instead of returning an absent or absolute
locator. -/
theorem claim_C2 : find_next_page_url (some c2soup) = Except.error "KeyError: href" := rfl

/-- C3: whenever `find_next_page_url` finds a next-page link, the returned
locator is absolute (the href, possibly relative, is resolved against the
site root), never relative. -/
theorem claim_C3 : ∀ (soup : Option Node) (url : String),
    find_next_page_url soup = Except.ok (some url) → hasScheme url = true := by
  have hm2 : ∀ (s : Node) (url : String),
      findNextMethod2 s = Except.ok (some url) → hasScheme url = true := by
    intro s url h2
    unfold findNextMethod2 at h2
    split at h2
    · split at h2
      · exact scanLinks_absolute _ _ h2
      · simp at h2
    · simp at h2
  intro soup url h
  cases soup with
  | none => simp [find_next_page_url] at h
  | some s =>
    simp only [find_next_page_url] at h
    split at h
    · simp at h
    · split at h
      · split at h
        · split at h
          · split at h
            · split at h
              · split at h
                · rename_i href _ _
                  have h1 := Option.some.inj (Except.ok.inj h)
                  rw [← h1]
                  exact hasScheme_urljoin href
                · exact hm2 s url h
              · exact hm2 s url h
            · exact hm2 s url h
          · exact hm2 s url h
        · exact hm2 s url h
      · exact hm2 s url h

/-- Witness for C3 at a concrete page: the discovered next-page locator is
the absolute resolution of the relative href. -/
theorem claim_C3_witness :
    find_next_page_url (some soupPage1)
      = Except.ok (some "https://www.amazon.com/product-reviews/X?pageNumber=2") ∧
    hasScheme "https://www.amazon.com/product-reviews/X?pageNumber=2" = true :=
  ⟨rfl, claim_C3 (some soupPage1) _ rfl⟩

/-- A non-nil list has `isEmpty = false`. -/
theorem isEmpty_false_of_ne {α : Type} {l : List α} (h : l ≠ []) : l.isEmpty = false := by
  cases l with
  | nil => exact absurd rfl h
  | cons a t => rfl

/-- A soup on which some strategy matches at least one element is truthy
(it has a descendant, hence contents). -/
theorem truthy_of_find_all_ne_nil {s : Node} {tag : String}
    {att : List (String × String)} (h : find_all s tag att ≠ []) : truthy s = true := by
  cases s with
  | text str =>
    exact absurd (rfl : find_all (Node.text str) tag att = []) h
  | elem t a cs =>
    cases cs with
    | nil => exact absurd (rfl : find_all (Node.elem t a []) tag att = []) h
    | cons c cs2 => rfl

/-- Every review produced by the strategy loop comes from the `selectorTexts`
of some strategy in the list. -/
theorem mem_tryStrategies {s : Node} {t : String} :
    ∀ sels, t ∈ tryStrategies s sels →
      ∃ tag attrs, (tag, attrs) ∈ sels ∧ t ∈ selectorTexts tag (find_all s tag attrs) := by
  intro sels
  induction sels with
  | nil => intro h; simp [tryStrategies] at h
  | cons hd rest ih =>
    intro h
    obtain ⟨tag, attrs⟩ := hd
    simp only [tryStrategies] at h
    split at h
    · obtain ⟨tg, ats, hmem, hin⟩ := ih h
      exact ⟨tg, ats, List.mem_cons_of_mem _ hmem, hin⟩
    · exact ⟨tag, attrs, List.mem_cons_self _ _, h⟩

/-- The text taken from a matched element is either empty or the strip of
some string. -/
theorem selectorText_shape (tag : String) (el : Node) :
    selectorText tag el = "" ∨ ∃ u, selectorText tag el = pyStrip u := by
  unfold selectorText
  cases htag : tag == "div" with
  | false =>
    simp only [htag, Bool.false_eq_true, if_false]
    exact Or.inr ⟨nodeText el, rfl⟩
  | true =>
    simp only [htag, if_true]
    cases hf : el.find "span" [] with
    | none => exact Or.inl rfl
    | some sp =>
      cases hts : truthy sp with
      | false => simp [hts]
      | true =>
        simp only [hts, if_true]
        exact Or.inr ⟨nodeText sp, rfl⟩

/-- C8: every text returned by `extract_reviews_from_page` is already
stripped and non-empty (whitespace-only matches are excluded); in particular
a page with three matching elements, two non-empty and one whitespace-only,
yields exactly the 2 non-empty reviews. -/
theorem claim_C8 :
    (∀ (soup : Option Node) (t : String),
      t ∈ extract_reviews_from_page soup → pyStrip t = t ∧ t ≠ "") ∧
    extract_reviews_from_page (some c8soup) = ["Great product", "Works well"] := by
  constructor
  · intro soup t ht
    cases soup with
    | none => simp [extract_reviews_from_page] at ht
    | some s =>
      simp only [extract_reviews_from_page] at ht
      split at ht
      · obtain ⟨tag, attrs, _, hin⟩ := mem_tryStrategies selectors ht
        unfold selectorTexts at hin
        rw [List.mem_filter] at hin
        obtain ⟨hmap, hpred⟩ := hin
        have hne : t ≠ "" := by
          intro he
          rw [he] at hpred
          simp at hpred
        obtain ⟨el, _, hel⟩ := List.mem_map.mp hmap
        rcases selectorText_shape tag el with hsh | ⟨u, hsh⟩
        · rw [hel] at hsh
          exact absurd hsh hne
        · rw [hel] at hsh
          refine ⟨?_, hne⟩
          rw [hsh, pyStrip_idem]
      · simp at ht
  · rfl

/-- Witness for C8 at a concrete result text of the three-element page. -/
theorem claim_C8_witness :
    "Great product" ∈ extract_reviews_from_page (some c8soup) ∧
    pyStrip "Great product" = "Great product" ∧ "Great product" ≠ "" := by
  have he : extract_reviews_from_page (some c8soup) = ["Great product", "Works well"] := rfl
  have hm : "Great product" ∈ extract_reviews_from_page (some c8soup) := by
    rw [he]; exact List.mem_cons_self _ _
  exact ⟨hm, claim_C8.1 (some c8soup) "Great product" hm⟩

/-- C5: extraction uses only the first strategy whose `find_all` matches at
least one element — later strategies are ignored once one matches, even
when the matching strategy contributes no non-empty texts (last conjunct:
a page whose first strategy matches only a whitespace-only review while the
second strategy would match a non-empty one yields no reviews at all). -/
theorem claim_C5 :
    (∀ s : Node,
      (find_all s "div" [("data-hook", "review-collapsed")] ≠ [] →
        extract_reviews_from_page (some s)
          = selectorTexts "div" (find_all s "div" [("data-hook", "review-collapsed")])) ∧
      (find_all s "div" [("data-hook", "review-collapsed")] = [] →
        find_all s "span" [("data-hook", "review-body")] ≠ [] →
        extract_reviews_from_page (some s)
          = selectorTexts "span" (find_all s "span" [("data-hook", "review-body")])) ∧
      (find_all s "div" [("data-hook", "review-collapsed")] = [] →
        find_all s "span" [("data-hook", "review-body")] = [] →
        find_all s "span" [("class", "a-size-base review-text")] ≠ [] →
        extract_reviews_from_page (some s)
          = selectorTexts "span" (find_all s "span" [("class", "a-size-base review-text")]))) ∧
    extract_reviews_from_page (some c5soup) = [] := by
  constructor
  · refine fun s => ⟨fun h => ?_, fun h1 h2 => ?_, fun h1 h2 h3 => ?_⟩
    · have ht := truthy_of_find_all_ne_nil h
      simp [extract_reviews_from_page, ht, selectors, tryStrategies, isEmpty_false_of_ne h]
    · have ht := truthy_of_find_all_ne_nil h2
      simp [extract_reviews_from_page, ht, selectors, tryStrategies, h1,
        isEmpty_false_of_ne h2]
    · have ht := truthy_of_find_all_ne_nil h3
      simp [extract_reviews_from_page, ht, selectors, tryStrategies, h1, h2,
        isEmpty_false_of_ne h3]
  · rfl

/-- Witness for C5 at a concrete page matched by the first strategy. -/
theorem claim_C5_witness :
    find_all c5div "div" [("data-hook", "review-collapsed")] ≠ [] ∧
    extract_reviews_from_page (some c5div)
      = selectorTexts "div" (find_all c5div "div" [("data-hook", "review-collapsed")]) := by
  have he : find_all c5div "div" [("data-hook", "review-collapsed")]
      = [Node.elem "div" [("data-hook", "review-collapsed")] [Node.elem "span" [] [Node.text " ok "]]] := rfl
  have hne : find_all c5div "div" [("data-hook", "review-collapsed")] ≠ [] := by
    rw [he]; simp
  exact ⟨hne, (claim_C5.1 c5div).1 hne⟩


/-- The loop performs at most `fuel` fetch attempts. -/
theorem scrapeLoop_count_le (transport : String → FetchOutcome) :
    ∀ (fuel : Nat) (url : String) (acc : List String),
      (scrapeLoop transport fuel url acc).2 ≤ fuel := by
  intro fuel
  induction fuel with
  | zero => intro url acc; simp [scrapeLoop]
  | succ k ih =>
    intro url acc
    simp only [scrapeLoop]
    split
    · dsimp only; omega
    · split
      · split
        · dsimp only; omega
        · dsimp only; omega
        · split
          · dsimp only
            exact Nat.succ_le_succ (ih _ _)
          · dsimp only; omega
      · dsimp only; omega

/-- C6: for every configuration with a positive page cap `N`, the crawl loop
terminates (it is a total function of the remaining-page fuel) and performs
at most `N` fetch attempts. -/
theorem claim_C6 : ∀ (transport : String → FetchOutcome) (s : AmazonReviewScraper),
    0 < s.max_pages → (scrape transport s).2 ≤ s.max_pages := by
  intro transport s _
  exact scrapeLoop_count_le transport s.max_pages s.base_url s.reviews

/-- Witness for C6: the 5-page crawl of product "X" stays within 5 fetches. -/
theorem claim_C6_witness :
    0 < (AmazonReviewScraper.init "X" 5 (3, 7)).max_pages ∧
    (scrape transportC4 (AmazonReviewScraper.init "X" 5 (3, 7))).2
      ≤ (AmazonReviewScraper.init "X" 5 (3, 7)).max_pages :=
  ⟨by decide, claim_C6 transportC4 (AmazonReviewScraper.init "X" 5 (3, 7)) (by decide)⟩

/-- C10: whatever review list the loop returns extends the accumulator it was
started from — elements are only appended, never reordered or removed. -/
theorem claim_C10 : ∀ (transport : String → FetchOutcome) (fuel : Nat) (url : String)
    (acc res : List String),
    (scrapeLoop transport fuel url acc).1 = Except.ok res → ∃ t, res = acc ++ t := by
  intro transport fuel
  induction fuel with
  | zero =>
    intro url acc res h
    simp [scrapeLoop] at h
    exact ⟨[], by rw [← h]; simp⟩
  | succ k ih =>
    intro url acc res h
    simp only [scrapeLoop] at h
    split at h
    · simp at h
      exact ⟨[], by rw [← h]; simp⟩
    · split at h
      · split at h
        · simp at h
        · simp at h
          exact ⟨extract_reviews_from_page (_fetch_page transport url), h.symm⟩
        · split at h
          · dsimp only at h
            obtain ⟨t, ht⟩ := ih _ _ _ h
            exact ⟨extract_reviews_from_page (_fetch_page transport url) ++ t,
              by rw [ht, List.append_assoc]⟩
          · simp at h
            exact ⟨extract_reviews_from_page (_fetch_page transport url), h.symm⟩
      · simp at h
        exact ⟨[], by rw [← h]; simp⟩

/-- Witness for C10: starting the loop with a seeded accumulator, the result
extends the seed. -/
theorem claim_C10_witness :
    (scrapeLoop transportC4 5 productXUrl ["seed"]).1 = Except.ok ["seed", "Nice product"] ∧
    ∃ t, ["seed", "Nice product"] = ["seed"] ++ t :=
  ⟨rfl, claim_C10 transportC4 5 productXUrl ["seed"] ["seed", "Nice product"] rfl⟩

/-- C4: a fetch that yields the absence signal (`None`: transport exception,
rate-limited status, or any other non-success status) makes the loop stop
and return exactly the reviews accumulated so far, without an exception;
and on the concrete 5-max-page crawl of product "X" where page 2 answers
429, the crawl returns exactly the page-1 reviews. -/
theorem claim_C4 :
    (∀ (transport : String → FetchOutcome) (k : Nat) (url : String) (acc : List String),
      url ≠ "" → _fetch_page transport url = none →
      scrapeLoop transport (k + 1) url acc = (Except.ok acc, 1)) ∧
    (scrape transportC4 (AmazonReviewScraper.init "X" 5 (3, 7))).1 = Except.ok ["Nice product"] := by
  constructor
  · intro transport k url acc hu hf
    simp [scrapeLoop, beq_false_of_ne hu, hf, truthySoup]
  · rfl

/-- Witness for C4: a crawl over a dead transport keeps the seeded
accumulator and stops after its single failed fetch. -/
theorem claim_C4_witness :
    ("https://www.amazon.com/product-reviews/Z" ≠ "" ∧
     _fetch_page transportDown "https://www.amazon.com/product-reviews/Z" = none) ∧
    scrapeLoop transportDown 3 "https://www.amazon.com/product-reviews/Z" ["w"]
      = (Except.ok ["w"], 1) :=
  ⟨⟨by decide, rfl⟩,
    claim_C4.1 transportDown 2 "https://www.amazon.com/product-reviews/Z" ["w"] (by decide) rfl⟩

/-- C7: in any iteration with a truthy fetched page, the loop stops when
next-page discovery returns no locator or the current page's own locator,
and advances to exactly one more loop round (a further fetch attempt) only
when the discovered locator is non-empty and differs from the current one. -/
theorem claim_C7 : ∀ (transport : String → FetchOutcome) (k : Nat) (current_url : String)
    (acc : List String),
    current_url ≠ "" →
    truthySoup (_fetch_page transport current_url) = true →
    ((find_next_page_url (_fetch_page transport current_url) = Except.ok none →
        scrapeLoop transport (k + 1) current_url acc
          = (Except.ok (acc ++ extract_reviews_from_page (_fetch_page transport current_url)), 1)) ∧
     (find_next_page_url (_fetch_page transport current_url) = Except.ok (some current_url) →
        scrapeLoop transport (k + 1) current_url acc
          = (Except.ok (acc ++ extract_reviews_from_page (_fetch_page transport current_url)), 1)) ∧
     (∀ next_url : String,
        find_next_page_url (_fetch_page transport current_url) = Except.ok (some next_url) →
        next_url ≠ "" → next_url ≠ current_url →
        scrapeLoop transport (k + 1) current_url acc
          = ((scrapeLoop transport k next_url
                (acc ++ extract_reviews_from_page (_fetch_page transport current_url))).1,
             (scrapeLoop transport k next_url
                (acc ++ extract_reviews_from_page (_fetch_page transport current_url))).2 + 1))) := by
  intro transport k current_url acc hu hs
  have hne := beq_false_of_ne hu
  refine ⟨fun hn => ?_, fun hn => ?_, fun next_url hn hne2 hdiff => ?_⟩
  · simp [scrapeLoop, hne, hs, hn]
  · simp [scrapeLoop, hne, hs, hn]
  · simp [scrapeLoop, hne, hs, hn, beq_false_of_ne hne2, beq_false_of_ne hdiff]

/-- Witness for C7: a page with reviews but no pagination stops the loop
after one fetch even though four more pages were allowed. -/
theorem claim_C7_witness :
    ("https://www.amazon.com/product-reviews/W" ≠ "" ∧
     truthySoup (_fetch_page transportC7 "https://www.amazon.com/product-reviews/W") = true ∧
     find_next_page_url (_fetch_page transportC7 "https://www.amazon.com/product-reviews/W")
       = Except.ok none) ∧
    scrapeLoop transportC7 5 "https://www.amazon.com/product-reviews/W" []
      = (Except.ok ["Great product", "Works well"], 1) := by
  refine ⟨⟨by decide, rfl, rfl⟩, ?_⟩
  have h := (claim_C7 transportC7 4 "https://www.amazon.com/product-reviews/W" []
    (by decide) rfl).1 rfl
  exact h

/-- C1 fails on the code: the pages the crawl fetches do depend on the
supplied product identifier — identifiers "X" and "Y" produce different
starting URLs, and on the same transport the two crawls return different
review lists. -/
theorem claim_C1_counterexample :
    (scrape transportC4 (AmazonReviewScraper.init "X" 5 (3, 7))).1
      ≠ (scrape transportC4 (AmazonReviewScraper.init "Y" 5 (3, 7))).1 := by
  intro h
  have h1 : (scrape transportC4 (AmazonReviewScraper.init "X" 5 (3, 7))).1
      = Except.ok ["Nice product"] := rfl
  have h2 : (scrape transportC4 (AmazonReviewScraper.init "Y" 5 (3, 7))).1
      = Except.ok ([] : List String) := rfl
  rw [h1, h2] at h
  have h3 := Except.ok.inj h
  simp at h3

/-- C1 amended: construction overwrites the stored identifier field with the
hardcoded `"B09G9FPHY6"` regardless of the argument, but the starting page
locator is still built from the supplied identifier, so the crawl's fetched
pages do depend on it. -/
theorem claim_C1_amended : ∀ (product_id : String) (max_pages : Nat) (delay_range : Nat × Nat),
    (AmazonReviewScraper.init product_id max_pages delay_range).product_id = "B09G9FPHY6" ∧
    (AmazonReviewScraper.init product_id max_pages delay_range).base_url
      = "https://www.amazon.com/product-reviews/" ++ product_id :=
  fun _ _ _ => ⟨rfl, rfl⟩

/-- The writing loop of `save_to_file` appends exactly the concatenation of
the per-review blocks to whatever the file already holds. -/
theorem foldl_append_blocks :
    ∀ (l : List (Nat × String)) (s : String),
      l.foldl (fun content p => content ++ reviewBlock (p.1 + 1) p.2) s
        = s ++ concatAll (l.map fun p => reviewBlock (p.1 + 1) p.2) := by
  intro l
  induction l with
  | nil => intro s; simp [concatAll]
  | cons a tl ih =>
    intro s
    simp only [List.foldl_cons, List.map_cons, concatAll]
    rw [ih, String.append_assoc]

/-- C9: persisting N collected reviews writes a transcript that is exactly
the concatenation of N numbered, delimited blocks, one per review in the
original order, independent of any previous file content (mode "w"
overwrites). -/
theorem claim_C9 : ∀ (reviews : List String) (old1 old2 : String),
    save_to_file reviews old1 = concatAll (transcriptBlocks reviews) ∧
    (transcriptBlocks reviews).length = reviews.length ∧
    save_to_file reviews old1 = save_to_file reviews old2 := by
  intro reviews old1 old2
  refine ⟨?_, ?_, rfl⟩
  · unfold save_to_file transcriptBlocks
    rw [foldl_append_blocks]
    rfl
  · unfold transcriptBlocks
    rw [List.length_map, List.enum_length]
